import Mathlib

/-!
# Verification of the rusticnes GxRom mapper and piano-roll debug window

Shallow embedding of `src/src/mmc/gxrom.rs` and `src/src/piano_roll_window.rs`.
Machine integers (`u8`, `u16`, `usize`) are modelled as `Nat` with explicit
range hypotheses where a theorem needs them; `Vec<u8>` is `List Nat`;
Rust's fallible array indexing and `%`-by-zero panics are modelled by an
`Except Unit` layer (`.error ()` stands for a panic).  Rust `f32` arithmetic
in the piano-roll window is idealized over `ℚ`.
-/

namespace RusticNes

/-- Modelled from the spec: the cartridge "mirroring mode" metadata field
(spec §3 "Cartridge image": header-derived mirroring type).  The enum itself
lives in `src/mmc/mapper.rs`, which is not part of the provided sources; the
claims only move the value around, so a two-constructor enum suffices. -/
inductive Mirroring where
  | horizontal
  | vertical
  deriving DecidableEq, Repr

/-- Modelled from the spec: the cartridge header record (spec §6 "Cartridge
load": header fields include the mirroring mode).  `cartridge::NesHeader` is
not in the provided sources; only its `mirroring` field is read by GxRom. -/
structure NesHeader where
  mirroring : Mirroring
  deriving DecidableEq, Repr

/-- The GxRom mapper state, from `pub struct GxRom` in `src/mmc/gxrom.rs`. -/
structure GxRom where
  prg_rom : List Nat
  chr_rom : List Nat
  mirroring : Mirroring
  prg_bank : Nat
  chr_bank : Nat
  deriving DecidableEq, Repr

/-- `GxRom::new` from `src/mmc/gxrom.rs`: copies the CHR and PRG buffers,
captures the header's mirroring, and zeroes both bank registers. -/
def GxRom.new (header : NesHeader) (chr : List Nat) (prg : List Nat) : GxRom :=
  { prg_rom := prg
    chr_rom := chr
    mirroring := header.mirroring
    prg_bank := 0x00
    chr_bank := 0x00 }

/-- The `Mapper::mirroring` trait method of GxRom (`fn mirroring(&self)`),
which returns the stored field.  Named `mirroringFn` because the structure
field accessor already uses the name `GxRom.mirroring`. -/
def GxRom.mirroringFn (g : GxRom) : Mirroring :=
  g.mirroring

/-- `GxRom::read_byte` from `src/mmc/gxrom.rs`.  The Rust method takes
`&mut self` and returns `Option<u8>`; here it returns the result paired with
the (unchanged) state.  `Except.error ()` models a Rust panic: indexing with
`chr_rom[idx % chr_rom.len()]` panics when the storage is empty (`% 0`).
In Lean `idx % 0 = idx` and `List.get?` on `[]` is `none`, so the empty case
lands in the `.error` branch exactly when Rust would panic; for non-empty
storage `idx % len < len` and the lookup always succeeds. -/
def GxRom.read_byte (g : GxRom) (address : Nat) : Except Unit (Option Nat) × GxRom :=
  if address ≤ 0x1FFF then
    match g.chr_rom.get? ((g.chr_bank * 0x2000 + address) % g.chr_rom.length) with
    | some b => (.ok (some b), g)
    | none => (.error (), g)
  else if 0x8000 ≤ address ∧ address ≤ 0xFFFF then
    match g.prg_rom.get? ((g.prg_bank * 0x8000 + (address - 0x8000)) % g.prg_rom.length) with
    | some b => (.ok (some b), g)
    | none => (.error (), g)
  else
    (.ok none, g)

/-- `GxRom::write_byte` from `src/mmc/gxrom.rs`: writes to `0x8000..=0xFFFF`
load the two 2-bit bank registers from the data byte; all other addresses
are ignored. -/
def GxRom.write_byte (g : GxRom) (address : Nat) (data : Nat) : GxRom :=
  if 0x8000 ≤ address ∧ address ≤ 0xFFFF then
    { g with
        prg_bank := (data &&& 0b00110000) >>> 4
        chr_bank := data &&& 0b00000011 }
  else
    g

/-- States reachable from `GxRom::new h chr prg` by any sequence of
`write_byte` and `read_byte` calls (reads return the state unchanged, but are
included so the relation covers every trait-method interaction). -/
inductive GxRom.ReachableFrom (h : NesHeader) (chr prg : List Nat) : GxRom → Prop where
  | new : GxRom.ReachableFrom h chr prg (GxRom.new h chr prg)
  | write (g : GxRom) (address data : Nat) :
      GxRom.ReachableFrom h chr prg g →
      GxRom.ReachableFrom h chr prg (g.write_byte address data)
  | read (g : GxRom) (address : Nat) :
      GxRom.ReachableFrom h chr prg g →
      GxRom.ReachableFrom h chr prg (g.read_byte address).2

/-! ## Piano-roll window (`src/src/piano_roll_window.rs`)

`f32` arithmetic is idealized over `ℚ`; the natural logarithm used by
`frequency_to_coordinate` is not expressible over `ℚ`, so it is passed in as
an explicit function parameter `ln` — every theorem below holds for an
arbitrary `ln`.  Rust numeric casts `as u8` / `as u32` from `f32` saturate
and truncate toward zero, modelled by the helpers below.  `u32` subtraction
is modelled by truncated `Nat` subtraction. -/

/-- Rust `as u8` cast from a (non-NaN) `f32`: truncate toward zero,
saturating into `0..=255`.  Over `ℚ`, for negative inputs `Int.toNat`
already clamps to `0`. -/
def u8_of_f32 (q : ℚ) : Nat :=
  min q.floor.toNat 255

/-- Rust `as u32` cast applied to an already-integral value (the result of
`.ceil()` or an integer subtraction): saturate into `0..=0xFFFFFFFF`. -/
def u32_of_int (i : ℤ) : Nat :=
  min i.toNat 0xFFFFFFFF

/-- Rust `as u32` cast from a (non-NaN) `f32`: truncate toward zero,
saturating into `0..=0xFFFFFFFF`. -/
def u32_of_f32 (q : ℚ) : Nat :=
  u32_of_int q.floor

def NTSC_CPU_FREQUENCY : ℚ := (1.789773 : ℚ) * 1024 * 1024
def HEADER_HEIGHT : Nat := 32
def NOTE_FIELD_X : Nat := 0
def NOTE_FIELD_Y : Nat := HEADER_HEIGHT
def NOTE_FIELD_SPACING : Nat := 8
def DMC_HEIGHT : Nat := 32
def KEY_HEIGHT : Nat := 9
def NOTE_COUNT : Nat := 76
def PERCUSSION_COUNT : Nat := 16
def NOTE_FIELD_WIDTH : Nat := 768
def NOTE_FIELD_HEIGHT : Nat := KEY_HEIGHT * NOTE_COUNT
def PERCUSSION_FIELD_HEIGHT : Nat := KEY_HEIGHT * PERCUSSION_COUNT
def LOWEST_NOTE_FREQ : ℚ := 55.0
def HIGHEST_NOTE_FREQ : ℚ := 4434.922

/-- Modelled from the spec: the audio unit's per-channel envelope/volume
unit (spec §3 AudioUnit: "envelope/volume unit", values in `[0,15]`).
`rusticnes_core::apu` is not among the provided sources; the piano-roll
window only calls `envelope.current_volume()`, so the unit is modelled as
its current volume value. -/
structure Envelope where
  volume : Nat
  deriving DecidableEq, Repr

/-- `current_volume()` of the modelled envelope unit. -/
def Envelope.current_volume (e : Envelope) : Nat :=
  e.volume

/-- Modelled from the spec: a channel's length counter (spec §3 AudioUnit:
"each with its own length counter").  Only the `length` field is read by the
piano-roll window. -/
structure LengthCounter where
  length : Nat
  deriving DecidableEq, Repr

/-- Modelled from the spec: pulse channel state (spec §3 AudioUnit), with
exactly the fields the piano-roll window reads. -/
structure PulseChannelState where
  envelope : Envelope
  length_counter : LengthCounter
  period_initial : Nat
  deriving DecidableEq, Repr

/-- Modelled from the spec: triangle channel state (spec §3 AudioUnit),
with exactly the fields the piano-roll window reads. -/
structure TriangleChannelState where
  length_counter : LengthCounter
  linear_counter_current : Nat
  period_initial : Nat
  deriving DecidableEq, Repr

/-- Modelled from the spec: noise channel state (spec §3 AudioUnit), with
exactly the fields the piano-roll window reads. -/
structure NoiseChannelState where
  envelope : Envelope
  length_counter : LengthCounter
  period_initial : Nat
  mode : Nat
  deriving DecidableEq, Repr

/-- Modelled from the spec: delta-modulation channel state (spec §3
AudioUnit), with exactly the fields the piano-roll window reads. -/
structure DmcState where
  silence_flag : Bool
  output_level : Nat
  deriving DecidableEq, Repr

/-- Modelled from the spec: the audio unit's aggregate state (spec §3
AudioUnit: pulse ×2, triangle, noise, delta-modulation). -/
structure ApuState where
  pulse_1 : PulseChannelState
  pulse_2 : PulseChannelState
  triangle : TriangleChannelState
  noise : NoiseChannelState
  dmc : DmcState
  deriving DecidableEq, Repr

/-- Modelled from the spec: the picture unit's state restricted to the one
field the piano-roll window reads (spec §3 PictureUnit: "current frame
counter"). -/
structure PpuState where
  current_frame : Nat
  deriving DecidableEq, Repr

/-- Modelled from the spec: the root aggregate (spec §3 SystemState),
restricted to the components the piano-roll window touches. -/
structure NesState where
  ppu : PpuState
  apu : ApuState
  deriving DecidableEq, Repr

/-- `pub struct ChannelState` from `src/piano_roll_window.rs`. -/
structure ChannelState where
  playing : Bool
  frequency : ℚ
  volume : ℚ
  deriving DecidableEq, Repr

/-- `frequency_to_coordinate` from `src/piano_roll_window.rs`, with the
`f32` natural logarithm passed in as `ln`. -/
def frequency_to_coordinate (ln : ℚ → ℚ) (frequency : ℚ) (height : Nat) : Nat :=
  let range := ln HIGHEST_NOTE_FREQ - ln LOWEST_NOTE_FREQ
  u32_of_int (((ln frequency - ln LOWEST_NOTE_FREQ) * (height : ℚ) / range).ceil)

/-- `pulse_frequency` from `src/piano_roll_window.rs`. -/
def pulse_frequency (pulse_period : ℚ) : ℚ :=
  NTSC_CPU_FREQUENCY / (16 * (pulse_period + 1))

/-- `triangle_frequency` from `src/piano_roll_window.rs`. -/
def triangle_frequency (triangle_period : ℚ) : ℚ :=
  NTSC_CPU_FREQUENCY / (32 * (triangle_period + 1))

/-- `apply_brightness` from `src/piano_roll_window.rs`; colors are RGBA
byte quadruples modelled as `List Nat`. -/
def apply_brightness (color : List Nat) (brightness : ℚ) : List Nat :=
  [ u8_of_f32 ((color.getD 0 0 : ℚ) * brightness)
  , u8_of_f32 ((color.getD 1 0 : ℚ) * brightness)
  , u8_of_f32 ((color.getD 2 0 : ℚ) * brightness)
  , 255 ]

/-- `pulse_channel_state` from `src/piano_roll_window.rs`. -/
def pulse_channel_state (pulse : PulseChannelState) : ChannelState :=
  let volume := pulse.envelope.current_volume
  let playing := volume != 0 && decide (0 < pulse.length_counter.length)
  let frequency := pulse_frequency (pulse.period_initial : ℚ)
  { playing := playing
    frequency := frequency
    volume := (volume : ℚ) }

/-- `triangle_channel_state` from `src/piano_roll_window.rs` (the source
sets the displayed volume to the constant `8.0`). -/
def triangle_channel_state (triangle : TriangleChannelState) : ChannelState :=
  let volume : ℚ := 8.0
  let playing :=
    decide (0 < triangle.length_counter.length) &&
    (triangle.linear_counter_current != 0) &&
    decide (2 < triangle.period_initial)
  let frequency := triangle_frequency (triangle.period_initial : ℚ)
  { playing := playing
    frequency := frequency
    volume := volume }

/-- `noise_channel_state` from `src/piano_roll_window.rs`.  The Rust `match`
on `noise.period_initial` (sixteen literal arms `4 => 0` through
`4068 => 15`, wildcard `=> 0`) is written as the equivalent chain of
equality tests. -/
def noise_channel_state (noise : NoiseChannelState) : ChannelState :=
  let volume := noise.envelope.current_volume
  let playing := volume != 0 && decide (0 < noise.length_counter.length)
  let frequency : Nat :=
    if noise.period_initial = 4 then 0
    else if noise.period_initial = 8 then 1
    else if noise.period_initial = 16 then 2
    else if noise.period_initial = 32 then 3
    else if noise.period_initial = 64 then 4
    else if noise.period_initial = 96 then 5
    else if noise.period_initial = 128 then 6
    else if noise.period_initial = 160 then 7
    else if noise.period_initial = 202 then 8
    else if noise.period_initial = 254 then 9
    else if noise.period_initial = 380 then 10
    else if noise.period_initial = 508 then 11
    else if noise.period_initial = 762 then 12
    else if noise.period_initial = 1016 then 13
    else if noise.period_initial = 2034 then 14
    else if noise.period_initial = 4068 then 15
    else 0
  { playing := playing
    frequency := (frequency : ℚ)
    volume := (volume : ℚ) }

/-- The noise period lookup table actually implemented by the `match` in
`noise_channel_state`: sixteen (period, index) pairs, `4 ↦ 0` through
`4068 ↦ 15`, read off the source's match arms. -/
def noise_period_table : List (Nat × Nat) :=
  [ (4, 0), (8, 1), (16, 2), (32, 3), (64, 4), (96, 5), (128, 6), (160, 7)
  , (202, 8), (254, 9), (380, 10), (508, 11), (762, 12), (1016, 13)
  , (2034, 14), (4068, 15) ]

/-- The noise period table as the SPEC describes it, for comparison with the
code: "noise uses a fixed lookup table of fourteen legal period values"
(spec §4.4) — i.e. only the first fourteen periods would be legal and
anything else would degrade to the default. -/
def spec_noise_period_legal : List Nat :=
  [4, 8, 16, 32, 64, 96, 128, 160, 202, 254, 380, 508, 762, 1016]

/-- Modelled from the spec: the front-end's pixel buffer.  The `drawing`
module belongs to the out-of-scope graphical front-end (spec §1 OUT OF
SCOPE: "on-screen debug visualizations"); its buffer is modelled as a
width/height pair with a pixel map.  Only the fact that its operations
touch nothing but the buffer matters for the claims. -/
structure SimpleBuffer where
  width : Nat
  height : Nat
  pixels : Nat → Nat → List Nat

/-- `SimpleBuffer::get_pixel` of the modelled drawing module. -/
def SimpleBuffer.get_pixel (b : SimpleBuffer) (x y : Nat) : List Nat :=
  b.pixels x y

/-- `SimpleBuffer::put_pixel` of the modelled drawing module. -/
def SimpleBuffer.put_pixel (b : SimpleBuffer) (x y : Nat) (color : List Nat) : SimpleBuffer :=
  { b with pixels := fun i j => if i = x ∧ j = y then color else b.pixels i j }

namespace drawing

/-- Modelled from the spec: `drawing::rect` of the out-of-scope front-end —
fills a `w × h` rectangle at `(x, y)` pixel by pixel. -/
def rect (b : SimpleBuffer) (x y w h : Nat) (color : List Nat) : SimpleBuffer :=
  (List.range h).foldl (fun accY dy =>
    (List.range w).foldl (fun accX dx =>
      accX.put_pixel (x + dx) (y + dy) color) accY) b

/-- Modelled from the spec: the front-end's bitmap font; only its glyph
size is retained. -/
structure Font where
  glyph_size : Nat
  deriving DecidableEq, Repr

/-- Modelled from the spec: `drawing::text` of the out-of-scope front-end —
writes a row of glyph pixels; the rendered shape is irrelevant to the
claims, only that it writes solely into the buffer. -/
def text (b : SimpleBuffer) (font : Font) (x y : Nat) (s : String) (color : List Nat) : SimpleBuffer :=
  (List.range (font.glyph_size * s.length)).foldl (fun acc dx =>
    acc.put_pixel (x + dx) y color) b

end drawing

/-- Modelled from the spec: the front-end's numeric formatting
(`format!` with two decimals) used for the header text; the resulting
string's content is irrelevant to the claims. -/
def format_fixed2 (q : ℚ) : String :=
  toString q

/-- `pub struct PianoRollWindow` from `src/piano_roll_window.rs`. -/
structure PianoRollWindow where
  buffer : SimpleBuffer
  shown : Bool
  font : drawing.Font
  last_frame : Nat
  last_dmc_output : Nat

/-- `draw_note` from `src/piano_roll_window.rs`.  The `u32` subtraction
computing `note_py` may underflow in Rust (wrapping in release builds) and
is modelled by truncated `Nat` subtraction; `note_py` only feeds a pixel
coordinate inside the buffer. -/
def draw_note (buffer : SimpleBuffer) (ln : ℚ → ℚ) (channel : ChannelState)
    (color : List Nat) : SimpleBuffer :=
  if channel.playing then
    let note_height := ((u32_of_f32 channel.volume * KEY_HEIGHT) / 15 &&& 0xFE) + 1
    let outline_py := frequency_to_coordinate ln channel.frequency NOTE_FIELD_HEIGHT
    let note_py := outline_py - ((KEY_HEIGHT - note_height) / 2)
    if KEY_HEIGHT ≤ outline_py ∧ outline_py < NOTE_FIELD_HEIGHT - KEY_HEIGHT then
      let buffer := drawing.rect buffer
        (NOTE_FIELD_X + NOTE_FIELD_WIDTH - 1)
        (NOTE_FIELD_HEIGHT - outline_py + NOTE_FIELD_Y - 1)
        1 KEY_HEIGHT (apply_brightness color 0.4)
      drawing.rect buffer
        (NOTE_FIELD_X + NOTE_FIELD_WIDTH - 1)
        (NOTE_FIELD_HEIGHT - note_py + NOTE_FIELD_Y - 1)
        1 note_height (apply_brightness color 1.0)
    else buffer
  else buffer

/-- `draw_percussion` from `src/piano_roll_window.rs`. -/
def draw_percussion (buffer : SimpleBuffer) (channel : ChannelState)
    (color : List Nat) : SimpleBuffer :=
  if channel.playing then
    let note_height := ((u32_of_f32 channel.volume * KEY_HEIGHT) / 15 &&& 0xFE) + 1
    let outline_py := u32_of_f32 (channel.frequency * (KEY_HEIGHT : ℚ))
    let note_py := outline_py + ((KEY_HEIGHT - note_height) / 2)
    if outline_py ≤ PERCUSSION_FIELD_HEIGHT - KEY_HEIGHT then
      let buffer := drawing.rect buffer
        (NOTE_FIELD_X + NOTE_FIELD_WIDTH - 1)
        (outline_py + NOTE_FIELD_Y + NOTE_FIELD_HEIGHT + NOTE_FIELD_SPACING * 2 + DMC_HEIGHT)
        1 KEY_HEIGHT (apply_brightness color 0.4)
      drawing.rect buffer
        (NOTE_FIELD_X + NOTE_FIELD_WIDTH - 1)
        (note_py + NOTE_FIELD_Y + NOTE_FIELD_HEIGHT + NOTE_FIELD_SPACING * 2 + DMC_HEIGHT)
        1 note_height (apply_brightness color 1.0)
    else buffer
  else buffer

/-- `draw_dmc` from `src/piano_roll_window.rs`. -/
def draw_dmc (buffer : SimpleBuffer) (dmc : DmcState) (last_output : Nat)
    (color : List Nat) : SimpleBuffer :=
  let playing := !dmc.silence_flag
  let background_py := HEADER_HEIGHT + NOTE_FIELD_HEIGHT + NOTE_FIELD_SPACING
  let sample_height := (((dmc.output_level : ℤ) - (last_output : ℤ)).natAbs * DMC_HEIGHT) / 128 + 1
  let sample_py := (DMC_HEIGHT / 2) - (sample_height / 2)
  let background_color := if playing then apply_brightness color 0.15 else apply_brightness color 0.1
  let sample_color := if playing then apply_brightness color 1.0 else apply_brightness color 0.5
  let buffer := drawing.rect buffer
    (NOTE_FIELD_X + NOTE_FIELD_WIDTH - 1) background_py 1 DMC_HEIGHT background_color
  drawing.rect buffer
    (NOTE_FIELD_X + NOTE_FIELD_WIDTH - 1) (background_py + sample_py) 1 sample_height sample_color

/-- `PianoRollWindow::shift_playfield_left` from `src/piano_roll_window.rs`:
for each row, copies every pixel's right neighbour into it, left to right. -/
def PianoRollWindow.shift_playfield_left (w : PianoRollWindow)
    (sx sy width height : Nat) : PianoRollWindow :=
  let shifted :=
    (List.range height).foldl (fun accY dy =>
      (List.range (width - 1)).foldl (fun accX dx =>
        accX.put_pixel (sx + dx) (sy + dy) (accX.get_pixel (sx + dx + 1) (sy + dy))) accY)
      w.buffer
  { w with buffer := shifted }

/-- `PianoRollWindow::draw_piano_keys` from `src/piano_roll_window.rs`. -/
def PianoRollWindow.draw_piano_keys (w : PianoRollWindow) : PianoRollWindow :=
  let octave_key_colors : List (List Nat) :=
    [ [112, 112, 128, 255], [112, 112, 128, 255], [56, 56, 64, 255]
    , [112, 112, 128, 255], [56, 56, 64, 255], [112, 112, 128, 255]
    , [56, 56, 64, 255], [112, 112, 128, 255], [112, 112, 128, 255]
    , [56, 56, 64, 255], [112, 112, 128, 255], [56, 56, 64, 255] ]
  let drawn :=
    (List.range NOTE_COUNT).foldl (fun acc key =>
        let key_color := octave_key_colors.getD (key % 12) []
        let acc := drawing.rect acc
          (NOTE_FIELD_X + NOTE_FIELD_WIDTH - 1)
          (HEADER_HEIGHT + key * KEY_HEIGHT)
          1 KEY_HEIGHT (apply_brightness key_color 0.2)
        let acc := acc.put_pixel
          (NOTE_FIELD_X + NOTE_FIELD_WIDTH - 1)
          (HEADER_HEIGHT + key * KEY_HEIGHT)
          (apply_brightness key_color 0.25)
        acc.put_pixel
          (NOTE_FIELD_X + NOTE_FIELD_WIDTH - 1)
          (HEADER_HEIGHT + key * KEY_HEIGHT + KEY_HEIGHT - 1)
          (apply_brightness key_color 0.15))
      w.buffer
  { w with buffer := drawn }

/-- `PianoRollWindow::draw_percussion_keys` from `src/piano_roll_window.rs`. -/
def PianoRollWindow.draw_percussion_keys (w : PianoRollWindow) : PianoRollWindow :=
  let percussion_key_colors : List (List Nat) :=
    [ [112, 128, 128, 255], [56, 64, 64, 255] ]
  let drawn :=
    (List.range PERCUSSION_COUNT).foldl (fun acc key =>
        let key_color := percussion_key_colors.getD (key % 2) []
        let acc := drawing.rect acc
          (NOTE_FIELD_X + NOTE_FIELD_WIDTH - 1)
          (HEADER_HEIGHT + NOTE_FIELD_HEIGHT + NOTE_FIELD_SPACING * 2 + DMC_HEIGHT + key * KEY_HEIGHT)
          1 KEY_HEIGHT (apply_brightness key_color 0.2)
        let acc := acc.put_pixel
          (NOTE_FIELD_X + NOTE_FIELD_WIDTH - 1)
          (HEADER_HEIGHT + NOTE_FIELD_HEIGHT + NOTE_FIELD_SPACING * 2 + DMC_HEIGHT + key * KEY_HEIGHT)
          (apply_brightness key_color 0.25)
        acc.put_pixel
          (NOTE_FIELD_X + NOTE_FIELD_WIDTH - 1)
          (HEADER_HEIGHT + NOTE_FIELD_HEIGHT + NOTE_FIELD_SPACING * 2 + DMC_HEIGHT + key * KEY_HEIGHT + KEY_HEIGHT - 1)
          (apply_brightness key_color 0.15))
      w.buffer
  { w with buffer := drawn }

/-- `PianoRollWindow::draw_channels` from `src/piano_roll_window.rs`: draws
the five channels into the window's buffer and latches the DMC output level
into `last_dmc_output`; `apu` is only read. -/
def PianoRollWindow.draw_channels (w : PianoRollWindow) (ln : ℚ → ℚ)
    (apu : ApuState) : PianoRollWindow :=
  let pulse_1_state := pulse_channel_state apu.pulse_1
  let buffer := draw_note w.buffer ln pulse_1_state [255, 64, 64, 255]
  let pulse_2_state := pulse_channel_state apu.pulse_2
  let buffer := draw_note buffer ln pulse_2_state [255, 144, 64, 255]
  let triangle_state := triangle_channel_state apu.triangle
  let buffer := draw_note buffer ln triangle_state [64, 255, 64, 255]
  let buffer := draw_dmc buffer apu.dmc w.last_dmc_output [128, 64, 255, 255]
  let noise_state := noise_channel_state apu.noise
  let buffer :=
    if apu.noise.mode = 0 then
      draw_percussion buffer noise_state [64, 64, 255, 255]
    else
      draw_percussion buffer noise_state [64, 255, 255, 255]
  { w with buffer := buffer, last_dmc_output := apu.dmc.output_level }

/-- `PianoRollWindow::draw_headers` from `src/piano_roll_window.rs`. -/
def PianoRollWindow.draw_headers (w : PianoRollWindow) (apu : ApuState) : PianoRollWindow :=
  let pulse_1_state := pulse_channel_state apu.pulse_1
  let pulse_2_state := pulse_channel_state apu.pulse_2
  let triangle_state := triangle_channel_state apu.triangle
  let buffer := drawing.text w.buffer w.font 0 0 "PULSE 1" [192, 32, 32, 255]
  let buffer := drawing.text buffer w.font 0 16 (format_fixed2 pulse_1_state.frequency) [192, 32, 32, 255]
  let buffer := drawing.text buffer w.font 84 0 "PULSE 2" [192, 128, 32, 255]
  let buffer := drawing.text buffer w.font 84 16 (format_fixed2 pulse_2_state.frequency) [192, 128, 32, 255]
  let buffer := drawing.text buffer w.font 168 0 "TRIANGLE" [32, 192, 32, 255]
  let buffer := drawing.text buffer w.font 168 16 (format_fixed2 triangle_state.frequency) [32, 192, 32, 255]
  { w with buffer := buffer }

/-- `PianoRollWindow::update` from `src/piano_roll_window.rs`.  The Rust
method takes `nes: &mut NesState`; the embedding threads the state through
explicitly and returns it alongside the updated window.  The body reads
`nes.ppu.current_frame` and `nes.apu` and performs no write through `nes`. -/
def PianoRollWindow.update (w : PianoRollWindow) (ln : ℚ → ℚ)
    (nes : NesState) : PianoRollWindow × NesState :=
  if nes.ppu.current_frame = w.last_frame then
    (w, nes)
  else
    let w := { w with last_frame := nes.ppu.current_frame }
    let w := w.shift_playfield_left NOTE_FIELD_X NOTE_FIELD_Y NOTE_FIELD_WIDTH
      (NOTE_FIELD_HEIGHT + NOTE_FIELD_SPACING + DMC_HEIGHT + NOTE_FIELD_SPACING + PERCUSSION_FIELD_HEIGHT)
    let width := w.buffer.width
    let w := { w with buffer := drawing.rect w.buffer 0 0 width HEADER_HEIGHT [0, 0, 0, 255] }
    let w := w.draw_piano_keys
    let w := w.draw_percussion_keys
    let w := w.draw_channels ln nes.apu
    let w := w.draw_headers nes.apu
    (w, nes)

/-! ## Helper lemmas -/

/-- `read_byte` returns its state component unchanged in every branch. -/
theorem read_byte_snd (g : GxRom) (address : Nat) : (g.read_byte address).2 = g := by
  unfold GxRom.read_byte
  split
  · split <;> rfl
  · split
    · split <;> rfl
    · rfl

/-- Indexing a non-empty list at a position already reduced modulo its
length always succeeds, and agrees with `getD`. -/
theorem get?_mod_eq (l : List Nat) (h : l ≠ []) (i : Nat) :
    l.get? (i % l.length) = some (l.getD (i % l.length) 0) := by
  have hlt : i % l.length < l.length := Nat.mod_lt _ (List.length_pos.mpr h)
  rw [List.getD_eq_getElem?_getD, List.getElem?_eq_getElem hlt, List.get?_eq_getElem?,
    List.getElem?_eq_getElem hlt]
  rfl

/-- On the PRG window with non-empty PRG storage, `read_byte` returns the
banked byte. -/
theorem read_byte_prg_eq (g : GxRom) (address : Nat) (hprg : g.prg_rom ≠ [])
    (h1 : 0x8000 ≤ address) (h2 : address ≤ 0xFFFF) :
    (g.read_byte address).1 =
      Except.ok (some (g.prg_rom.getD
        ((g.prg_bank * 0x8000 + (address - 0x8000)) % g.prg_rom.length) 0)) := by
  have hn : ¬ (address ≤ 0x1FFF) := by omega
  simp only [GxRom.read_byte, if_neg hn, if_pos (And.intro h1 h2),
    get?_mod_eq g.prg_rom hprg]

/-- On the CHR window with non-empty CHR storage, `read_byte` returns the
banked byte. -/
theorem read_byte_chr_eq (g : GxRom) (address : Nat) (hchr : g.chr_rom ≠ [])
    (h1 : address ≤ 0x1FFF) :
    (g.read_byte address).1 =
      Except.ok (some (g.chr_rom.getD
        ((g.chr_bank * 0x2000 + address) % g.chr_rom.length) 0)) := by
  simp only [GxRom.read_byte, if_pos h1, get?_mod_eq g.chr_rom hchr]

/-- Outside both claimed windows, `read_byte` falls through with `none`. -/
theorem read_byte_none (g : GxRom) (address : Nat)
    (h1 : ¬ address ≤ 0x1FFF) (h2 : ¬ (0x8000 ≤ address ∧ address ≤ 0xFFFF)) :
    (g.read_byte address).1 = Except.ok none := by
  simp only [GxRom.read_byte, if_neg h1, if_neg h2]

/-- `write_byte` never touches the storage arrays or the mirroring field. -/
theorem write_preserves (g : GxRom) (address data : Nat) :
    (g.write_byte address data).prg_rom = g.prg_rom ∧
    (g.write_byte address data).chr_rom = g.chr_rom ∧
    (g.write_byte address data).mirroring = g.mirroring := by
  unfold GxRom.write_byte
  split <;> exact ⟨rfl, rfl, rfl⟩

/-- The two masked bank-select fields of a written data byte are 2-bit. -/
theorem bank_mask_lt (data : Nat) :
    (data &&& 0b00110000) >>> 4 < 4 ∧ data &&& 0b00000011 < 4 := by
  constructor
  · have h : data &&& 48 ≤ 48 := Nat.and_le_right
    have h2 : (data &&& 48) >>> 4 = (data &&& 48) / 16 := by
      rw [Nat.shiftRight_eq_div_pow]
    omega
  · have h : data &&& 3 ≤ 3 := Nat.and_le_right
    omega

/-- Every state reachable from `GxRom::new` keeps the storage buffers and
mirroring captured at construction. -/
theorem reachable_fields (h : NesHeader) (chr prg : List Nat) (g : GxRom)
    (hr : GxRom.ReachableFrom h chr prg g) :
    g.prg_rom = prg ∧ g.chr_rom = chr ∧ g.mirroring = h.mirroring := by
  induction hr with
  | new => exact ⟨rfl, rfl, rfl⟩
  | write g a d hr ih =>
      obtain ⟨hp, hc, hm⟩ := write_preserves g a d
      exact ⟨hp.trans ih.1, hc.trans ih.2.1, hm.trans ih.2.2⟩
  | read g a hr ih =>
      rw [read_byte_snd]
      exact ih

/-! ## Claim theorems -/

/-- C1: for every GxRom state with non-empty PRG storage and every address
in `0x8000..=0xFFFF`, `read_byte` returns
`Some(prg_rom[(prg_bank * 0x8000 + (address - 0x8000)) mod prg_rom.len()])`,
and with non-empty CHR storage every address in `0x0000..=0x1FFF` returns
`Some(chr_rom[(chr_bank * 0x2000 + address) mod chr_rom.len()])`,
instantiating the spec's generalized bank computation formula. -/
theorem gxrom_read_byte_bank_formula (g : GxRom) (address : Nat) :
    (g.prg_rom ≠ [] → 0x8000 ≤ address → address ≤ 0xFFFF →
      (g.read_byte address).1 =
        Except.ok (some (g.prg_rom.getD
          ((g.prg_bank * 0x8000 + (address - 0x8000)) % g.prg_rom.length) 0))) ∧
    (g.chr_rom ≠ [] → address ≤ 0x1FFF →
      (g.read_byte address).1 =
        Except.ok (some (g.chr_rom.getD
          ((g.chr_bank * 0x2000 + address) % g.chr_rom.length) 0))) :=
  ⟨fun hprg h1 h2 => read_byte_prg_eq g address hprg h1 h2,
   fun hchr h1 => read_byte_chr_eq g address hchr h1⟩

/-- Witness for C1 at a concrete mapper state: PRG read at `0x8001` and CHR
read at `5`. -/
theorem gxrom_read_byte_bank_formula_witness :
    ((GxRom.new ⟨Mirroring.horizontal⟩ [7] [5, 6]).read_byte 0x8001).1 = Except.ok (some 6) ∧
    ((GxRom.new ⟨Mirroring.horizontal⟩ [7] [5, 6]).read_byte 5).1 = Except.ok (some 7) := by
  refine ⟨?_, ?_⟩
  · have h := (gxrom_read_byte_bank_formula (GxRom.new ⟨Mirroring.horizontal⟩ [7] [5, 6]) 0x8001).1
      (by decide) (by decide) (by decide)
    rw [h]
    rfl
  · have h := (gxrom_read_byte_bank_formula (GxRom.new ⟨Mirroring.horizontal⟩ [7] [5, 6]) 5).2
      (by decide) (by decide)
    rw [h]
    rfl

/-- C2 counterexample: the claim quantifies over every state reachable via
`GxRom::new` and `write_byte`, but `GxRom::new` accepts empty storage
buffers, and on such a (reachable) state the claimed CHR read at address
`0` panics in Rust (`% 0` — modelled as `Except.error`), rather than
wrapping in bounds. -/
theorem gxrom_read_byte_empty_storage_panics :
    GxRom.ReachableFrom ⟨Mirroring.horizontal⟩ [] [] (GxRom.new ⟨Mirroring.horizontal⟩ [] []) ∧
    ((GxRom.new ⟨Mirroring.horizontal⟩ [] []).read_byte 0).1 = Except.error () :=
  ⟨.new, rfl⟩

/-- C2 (amended with non-empty storage buffers): for every state reachable
by `GxRom::new` on non-empty CHR/PRG buffers and any `write_byte` sequence,
and every claimed address, the computed storage index is in bounds — the
modulo reduction wraps out-of-range bank selects — and `read_byte` returns
a byte without panicking. -/
theorem gxrom_read_byte_reachable_in_bounds (h : NesHeader) (chr prg : List Nat)
    (g : GxRom) (hr : GxRom.ReachableFrom h chr prg g)
    (hchr : chr ≠ []) (hprg : prg ≠ []) (address : Nat) :
    (address ≤ 0x1FFF →
      (g.chr_bank * 0x2000 + address) % g.chr_rom.length < g.chr_rom.length ∧
      ∃ b, (g.read_byte address).1 = Except.ok (some b)) ∧
    (0x8000 ≤ address → address ≤ 0xFFFF →
      (g.prg_bank * 0x8000 + (address - 0x8000)) % g.prg_rom.length < g.prg_rom.length ∧
      ∃ b, (g.read_byte address).1 = Except.ok (some b)) := by
  obtain ⟨hp, hc, _⟩ := reachable_fields h chr prg g hr
  have hchr2 : g.chr_rom ≠ [] := by rw [hc]; exact hchr
  have hprg2 : g.prg_rom ≠ [] := by rw [hp]; exact hprg
  constructor
  · intro ha
    exact ⟨Nat.mod_lt _ (List.length_pos.mpr hchr2),
      ⟨_, read_byte_chr_eq g address hchr2 ha⟩⟩
  · intro h1 h2
    exact ⟨Nat.mod_lt _ (List.length_pos.mpr hprg2),
      ⟨_, read_byte_prg_eq g address hprg2 h1 h2⟩⟩

/-- Witness for the amended C2: after an out-of-range bank write of `0xFF`,
a PRG read at `0x9000` on a reachable two-byte-PRG state still returns a
byte. -/
theorem gxrom_read_byte_reachable_in_bounds_witness :
    ∃ b, ((((GxRom.new ⟨Mirroring.vertical⟩ [1, 2] [3, 4]).write_byte 0x8000 0xFF)).read_byte 0x9000).1 =
      Except.ok (some b) :=
  ((gxrom_read_byte_reachable_in_bounds ⟨Mirroring.vertical⟩ [1, 2] [3, 4] _
      (.write _ _ _ .new) (by decide) (by decide) 0x9000).2 (by decide) (by decide)).2

/-- C3 counterexample: on a mapper state with empty PRG storage (which the
claim's "every GxRom mapper state" includes), the claimed address `0x8000`
does not return a byte — the Rust code panics (`% 0`), modelled as
`Except.error`. -/
theorem gxrom_read_byte_claimed_address_fails :
    ((GxRom.new ⟨Mirroring.vertical⟩ [9] []).read_byte 0x8000).1 = Except.error () :=
  rfl

/-- C3 (amended with non-empty storage): for every 16-bit address,
`read_byte` returns `None` exactly on the unclaimed range
`0x2000..=0x7FFF`, and returns a byte on every claimed address
(`0x0000..=0x1FFF` and `0x8000..=0xFFFF`). -/
theorem gxrom_read_byte_claims_partition (g : GxRom) (address : Nat)
    (haddr : address < 0x10000) (hprg : g.prg_rom ≠ []) (hchr : g.chr_rom ≠ []) :
    ((g.read_byte address).1 = Except.ok none ↔ 0x2000 ≤ address ∧ address ≤ 0x7FFF) ∧
    (address ≤ 0x1FFF ∨ 0x8000 ≤ address → ∃ b, (g.read_byte address).1 = Except.ok (some b)) := by
  by_cases hc1 : address ≤ 0x1FFF
  · rw [read_byte_chr_eq g address hchr hc1]
    constructor
    · constructor
      · intro he
        exact absurd he (by simp)
      · intro hco
        omega
    · intro _
      exact ⟨_, rfl⟩
  · by_cases hc2 : address ≤ 0x7FFF
    · have hnone := read_byte_none g address hc1 (by omega)
      rw [hnone]
      constructor
      · constructor
        · intro _
          omega
        · intro _
          rfl
      · intro hco
        omega
    · have h1 : 0x8000 ≤ address := by omega
      have h2 : address ≤ 0xFFFF := by omega
      rw [read_byte_prg_eq g address hprg h1 h2]
      constructor
      · constructor
        · intro he
          exact absurd he (by simp)
        · intro hco
          omega
      · intro _
        exact ⟨_, rfl⟩

/-- Witness for the amended C3: on a concrete non-empty state, the
unclaimed address `0x3000` falls through with `None` and the claimed
address `0x8000` returns a byte. -/
theorem gxrom_read_byte_claims_partition_witness :
    ((GxRom.new ⟨Mirroring.horizontal⟩ [7] [5, 6]).read_byte 0x3000).1 = Except.ok none ∧
    ∃ b, ((GxRom.new ⟨Mirroring.horizontal⟩ [7] [5, 6]).read_byte 0x8000).1 = Except.ok (some b) := by
  constructor
  · exact ((gxrom_read_byte_claims_partition (GxRom.new ⟨Mirroring.horizontal⟩ [7] [5, 6]) 0x3000
      (by decide) (by decide) (by decide)).1).mpr ⟨by decide, by decide⟩
  · exact (gxrom_read_byte_claims_partition (GxRom.new ⟨Mirroring.horizontal⟩ [7] [5, 6]) 0x8000
      (by decide) (by decide) (by decide)).2 (Or.inr (by decide))

/-- C4: `write_byte` (a total function here, as in the panic-free Rust
body) silently ignores every unclaimed write: for addresses in
`0x0000..=0x7FFF` the whole state — `prg_rom`, `chr_rom`, `mirroring`,
`prg_bank`, `chr_bank` — is unchanged. -/
theorem gxrom_write_byte_unclaimed_ignored (g : GxRom) (address data : Nat)
    (h : address ≤ 0x7FFF) :
    g.write_byte address data = g ∧
    (g.write_byte address data).prg_rom = g.prg_rom ∧
    (g.write_byte address data).chr_rom = g.chr_rom ∧
    (g.write_byte address data).mirroring = g.mirroring ∧
    (g.write_byte address data).prg_bank = g.prg_bank ∧
    (g.write_byte address data).chr_bank = g.chr_bank := by
  have hn : ¬ (0x8000 ≤ address ∧ address ≤ 0xFFFF) := by omega
  unfold GxRom.write_byte
  rw [if_neg hn]
  exact ⟨rfl, rfl, rfl, rfl, rfl, rfl⟩

/-- Witness for C4: a concrete unclaimed write at `0x4000` is a no-op. -/
theorem gxrom_write_byte_unclaimed_ignored_witness :
    (GxRom.new ⟨Mirroring.horizontal⟩ [1] [2]).write_byte 0x4000 0xFF =
      GxRom.new ⟨Mirroring.horizontal⟩ [1] [2] :=
  (gxrom_write_byte_unclaimed_ignored (GxRom.new ⟨Mirroring.horizontal⟩ [1] [2]) 0x4000 0xFF
    (by decide)).1

/-- C5: every write of byte `data` to `0x8000..=0xFFFF` sets
`prg_bank = (data & 0b0011_0000) >> 4` and `chr_bank = data & 0b0000_0011`;
the other bits are discarded, so both resulting bank registers are below
4. -/
theorem gxrom_write_byte_bank_fields (g : GxRom) (address data : Nat)
    (h1 : 0x8000 ≤ address) (h2 : address ≤ 0xFFFF) (_hd : data < 256) :
    (g.write_byte address data).prg_bank = (data &&& 0b00110000) >>> 4 ∧
    (g.write_byte address data).chr_bank = data &&& 0b00000011 ∧
    (g.write_byte address data).prg_bank < 4 ∧
    (g.write_byte address data).chr_bank < 4 := by
  unfold GxRom.write_byte
  rw [if_pos (And.intro h1 h2)]
  obtain ⟨hb1, hb2⟩ := bank_mask_lt data
  exact ⟨rfl, rfl, hb1, hb2⟩

/-- Witness for C5: writing `0xFF` to `0x8000` masks both bank registers
down to `3`. -/
theorem gxrom_write_byte_bank_fields_witness :
    ((GxRom.new ⟨Mirroring.horizontal⟩ [] []).write_byte 0x8000 0xFF).prg_bank = 3 ∧
    ((GxRom.new ⟨Mirroring.horizontal⟩ [] []).write_byte 0x8000 0xFF).chr_bank = 3 := by
  have h := gxrom_write_byte_bank_fields (GxRom.new ⟨Mirroring.horizontal⟩ [] []) 0x8000 0xFF
    (by decide) (by decide) (by decide)
  exact ⟨h.1.trans (by decide), h.2.1.trans (by decide)⟩

/-- C6: `write_byte` leaves `prg_rom`, `chr_rom` and `mirroring` unchanged
for every address and data byte (storage is immutable after load; only the
bank registers may change), and on every state reachable from construction
the `mirroring()` method still returns the header's mirroring mode and the
storage still equals the loaded buffers. -/
theorem gxrom_storage_immutable (g : GxRom) (address data : Nat)
    (h : NesHeader) (chr prg : List Nat) (g2 : GxRom) :
    ((g.write_byte address data).prg_rom = g.prg_rom ∧
     (g.write_byte address data).chr_rom = g.chr_rom ∧
     (g.write_byte address data).mirroring = g.mirroring) ∧
    (GxRom.ReachableFrom h chr prg g2 →
      g2.prg_rom = prg ∧ g2.chr_rom = chr ∧ g2.mirroringFn = h.mirroring) := by
  refine ⟨write_preserves g address data, fun hr => ?_⟩
  obtain ⟨hp, hc, hm⟩ := reachable_fields h chr prg g2 hr
  exact ⟨hp, hc, hm⟩

/-- Witness for C6: after a bank write, `mirroring()` still reports the
mode captured from the header at construction. -/
theorem gxrom_storage_immutable_witness :
    ((GxRom.new ⟨Mirroring.vertical⟩ [1] [2]).write_byte 0x8000 0x37).mirroringFn =
      Mirroring.vertical :=
  ((gxrom_storage_immutable (GxRom.new ⟨Mirroring.vertical⟩ [1] [2]) 0 0 ⟨Mirroring.vertical⟩ [1] [2]
      ((GxRom.new ⟨Mirroring.vertical⟩ [1] [2]).write_byte 0x8000 0x37)).2
    (.write _ _ _ .new)).2.2

/-- C10: `read_byte`, despite taking the state mutably in Rust, leaves
every field of the mapper state unchanged, and two consecutive reads of the
same address return the same result. -/
theorem gxrom_read_byte_pure (g : GxRom) (address : Nat) :
    (g.read_byte address).2 = g ∧
    (g.read_byte address).2.prg_rom = g.prg_rom ∧
    (g.read_byte address).2.chr_rom = g.chr_rom ∧
    (g.read_byte address).2.mirroring = g.mirroring ∧
    (g.read_byte address).2.prg_bank = g.prg_bank ∧
    (g.read_byte address).2.chr_bank = g.chr_bank ∧
    ((g.read_byte address).2.read_byte address).1 = (g.read_byte address).1 := by
  rw [read_byte_snd g address]
  exact ⟨rfl, rfl, rfl, rfl, rfl, rfl, rfl⟩

/-- C7 counterexample: the stored period `2034` is outside the spec's
fourteen-entry legal table, yet `noise_channel_state` maps it to the
displayed frequency `14` instead of degrading to the default `0` — the
implemented table has sixteen legal entries, not fourteen. -/
theorem noise_fourteen_table_refuted :
    (noise_channel_state ⟨⟨5⟩, ⟨1⟩, 2034, 0⟩).frequency = 14 ∧
    (2034 : Nat) ∉ spec_noise_period_legal ∧
    spec_noise_period_legal.length = 14 ∧
    (14 : ℚ) ≠ 0 := by
  refine ⟨?_, by decide, by decide, by norm_num⟩
  norm_num [noise_channel_state, Envelope.current_volume]

/-- C7 (amended: sixteen legal period values, not fourteen):
`noise_channel_state` never faults — the displayed frequency is exactly the
table index associated to the stored period by the sixteen-entry lookup
table, and any unrecognized stored period degrades to the default index
`0`. -/
theorem noise_channel_state_period_table (noise : NoiseChannelState) :
    (noise_channel_state noise).frequency =
      (((noise_period_table.lookup noise.period_initial).getD 0 : Nat) : ℚ) := by
  rcases eq_or_ne noise.period_initial 4 with h | hne4
  · simp [noise_channel_state, noise_period_table, h, List.lookup]
  rcases eq_or_ne noise.period_initial 8 with h | hne8
  · simp [noise_channel_state, noise_period_table, h, List.lookup]
  rcases eq_or_ne noise.period_initial 16 with h | hne16
  · simp [noise_channel_state, noise_period_table, h, List.lookup]
  rcases eq_or_ne noise.period_initial 32 with h | hne32
  · simp [noise_channel_state, noise_period_table, h, List.lookup]
  rcases eq_or_ne noise.period_initial 64 with h | hne64
  · simp [noise_channel_state, noise_period_table, h, List.lookup]
  rcases eq_or_ne noise.period_initial 96 with h | hne96
  · simp [noise_channel_state, noise_period_table, h, List.lookup]
  rcases eq_or_ne noise.period_initial 128 with h | hne128
  · simp [noise_channel_state, noise_period_table, h, List.lookup]
  rcases eq_or_ne noise.period_initial 160 with h | hne160
  · simp [noise_channel_state, noise_period_table, h, List.lookup]
  rcases eq_or_ne noise.period_initial 202 with h | hne202
  · simp [noise_channel_state, noise_period_table, h, List.lookup]
  rcases eq_or_ne noise.period_initial 254 with h | hne254
  · simp [noise_channel_state, noise_period_table, h, List.lookup]
  rcases eq_or_ne noise.period_initial 380 with h | hne380
  · simp [noise_channel_state, noise_period_table, h, List.lookup]
  rcases eq_or_ne noise.period_initial 508 with h | hne508
  · simp [noise_channel_state, noise_period_table, h, List.lookup]
  rcases eq_or_ne noise.period_initial 762 with h | hne762
  · simp [noise_channel_state, noise_period_table, h, List.lookup]
  rcases eq_or_ne noise.period_initial 1016 with h | hne1016
  · simp [noise_channel_state, noise_period_table, h, List.lookup]
  rcases eq_or_ne noise.period_initial 2034 with h | hne2034
  · simp [noise_channel_state, noise_period_table, h, List.lookup]
  rcases eq_or_ne noise.period_initial 4068 with h | hne4068
  · simp [noise_channel_state, noise_period_table, h, List.lookup]
  simp [noise_channel_state, noise_period_table, List.lookup, hne4, hne8, hne16, hne32,
    hne64, hne96, hne128, hne160, hne202, hne254, hne380, hne508, hne762, hne1016,
    hne2034, hne4068, beq_eq_false_iff_ne.mpr hne4, beq_eq_false_iff_ne.mpr hne8,
    beq_eq_false_iff_ne.mpr hne16, beq_eq_false_iff_ne.mpr hne32,
    beq_eq_false_iff_ne.mpr hne64, beq_eq_false_iff_ne.mpr hne96,
    beq_eq_false_iff_ne.mpr hne128, beq_eq_false_iff_ne.mpr hne160,
    beq_eq_false_iff_ne.mpr hne202, beq_eq_false_iff_ne.mpr hne254,
    beq_eq_false_iff_ne.mpr hne380, beq_eq_false_iff_ne.mpr hne508,
    beq_eq_false_iff_ne.mpr hne762, beq_eq_false_iff_ne.mpr hne1016,
    beq_eq_false_iff_ne.mpr hne2034, beq_eq_false_iff_ne.mpr hne4068]

/-- C8: the pulse channel's period-to-frequency law divides the fixed NTSC
CPU clock by `16*(period+1)` and the triangle channel's by `32*(period+1)`,
both as the standalone conversion functions and as the frequencies the
channel-state readers display. -/
theorem apu_frequency_laws (p : ℚ) (ps : PulseChannelState) (ts : TriangleChannelState) :
    pulse_frequency p = NTSC_CPU_FREQUENCY / (16 * (p + 1)) ∧
    triangle_frequency p = NTSC_CPU_FREQUENCY / (32 * (p + 1)) ∧
    (pulse_channel_state ps).frequency =
      NTSC_CPU_FREQUENCY / (16 * ((ps.period_initial : ℚ) + 1)) ∧
    (triangle_channel_state ts).frequency =
      NTSC_CPU_FREQUENCY / (32 * ((ts.period_initial : ℚ) + 1)) :=
  ⟨rfl, rfl, rfl, rfl⟩

/-- C9: the piano-roll debug window's `update` (together with the channel
readers and drawing helpers it calls) never mutates the emulated state: the
`NesState` it is handed — including `ppu.current_frame` and every APU
channel — is returned unchanged, for any implementation `ln` of the `f32`
logarithm. -/
theorem piano_roll_update_preserves_nes (w : PianoRollWindow) (ln : ℚ → ℚ) (nes : NesState) :
    (w.update ln nes).2 = nes ∧
    (w.update ln nes).2.ppu.current_frame = nes.ppu.current_frame ∧
    (w.update ln nes).2.apu.pulse_1 = nes.apu.pulse_1 ∧
    (w.update ln nes).2.apu.pulse_2 = nes.apu.pulse_2 ∧
    (w.update ln nes).2.apu.triangle = nes.apu.triangle ∧
    (w.update ln nes).2.apu.noise = nes.apu.noise ∧
    (w.update ln nes).2.apu.dmc = nes.apu.dmc := by
  have h : (w.update ln nes).2 = nes := by
    unfold PianoRollWindow.update
    split <;> rfl
  rw [h]
  exact ⟨rfl, rfl, rfl, rfl, rfl, rfl, rfl⟩

end RusticNes
